import Mathlib

/-!
Verification of the Azure Service Bus source adapter
(`pkg/sources/adapter/azureservicebussource/adapter.go`).

The development shallowly embeds the adapter's message-handling pipeline:
resource-identifier validation, entity-path derivation, event sanitization,
the per-message dispatch loop, the acknowledgment decision, and the
authentication fallback for namespace binding.  External collaborators
(the message processor, the CloudEvents validator, the event sender, the
broker completion handle, and the SDK binding strategies) are parameters
of the embedded functions, matching the interfaces the Go code consumes.
Side effects (events sent, completion-handle invocations, attempted
authentication strategies) are made explicit in the return values.
-/

namespace AzureServiceBus

/-- Modelled from the spec: the structured resource identifier
(`v1alpha1.AzureResourceID` in the repository's API package, whose record
declaration and JSON deserializer are outside the adapter file).  Fields
follow the spec's ResourceLocator and the adapter's field accesses. -/
structure AzureResourceID where
  SubscriptionID : String
  ResourceGroup : String
  ResourceProvider : String
  Namespace : String
  ResourceType : String
  ResourceName : String
  SubResourceType : String
  SubResourceName : String
deriving DecidableEq

/-- Constant `resourceProviderServiceBus` from adapter.go. -/
def resourceProviderServiceBus : String := "Microsoft.ServiceBus"

/-- Constant `resourceTypeQueues` from adapter.go. -/
def resourceTypeQueues : String := "queues"

/-- Constant `resourceTypeTopics` from adapter.go. -/
def resourceTypeTopics : String := "topics"

/-- Constant `resourceTypeSubscriptions` from adapter.go. -/
def resourceTypeSubscriptions : String := "subscriptions"

/-- The Go boolean expression guarding the error return of
`parseServiceBusResourceID`, with Go's `&&`-over-`||` precedence. -/
def isNotServiceBusEntity (resID : AzureResourceID) : Bool :=
  resID.ResourceProvider != resourceProviderServiceBus ||
  resID.Namespace == "" ||
  (resID.ResourceType != resourceTypeQueues && resID.ResourceType != resourceTypeTopics) ||
  (resID.ResourceType == resourceTypeQueues && resID.SubResourceType != "") ||
  (resID.ResourceType == resourceTypeTopics && resID.SubResourceType != resourceTypeSubscriptions)

/-- Embedding of `parseServiceBusResourceID`, applied to the already
deserialized resource ID (the `json.Unmarshal` step precedes the
validation in the Go function and is performed by the API package's
deserializer, outside the adapter file). -/
def parseServiceBusResourceID (resID : AzureResourceID) : Except String AzureResourceID :=
  if isNotServiceBusEntity resID
  then Except.error "resource ID does not refer to a Service Bus entity"
  else Except.ok resID

/-- Whether `parseServiceBusResourceID` succeeds on the given deserialized
resource ID. -/
def parseSucceeds (resID : AzureResourceID) : Bool :=
  match parseServiceBusResourceID resID with
  | Except.ok _ => true
  | Except.error _ => false

/-- Embedding of `entityPath`: the Go `switch` on the resource type. -/
def entityPath (entityID : AzureResourceID) : String :=
  if entityID.ResourceType = resourceTypeQueues then
    entityID.ResourceName
  else if entityID.ResourceType = resourceTypeTopics then
    entityID.ResourceName ++ "/Subscriptions/" ++ entityID.SubResourceName
  else
    ""

/-- A CloudEvent envelope, restricted to the attributes the adapter reads
or writes: the id (`ev.ID()`), the context attributes, and the data. -/
structure CloudEvent where
  id : String
  source : String
  eventType : String
  dataschema : String
  data : String
deriving DecidableEq

/-- The SDK's `SetDataSchema` on an event. -/
def setDataSchema (schema : String) (ev : CloudEvent) : CloudEvent :=
  { ev with dataschema := schema }

/-- Embedding of `sanitizeEvent`: iterate over the failing attribute names
of the validation error and apply the known fix (clearing `dataschema`)
where one exists. -/
def sanitizeEvent (validErrs : List String) (origEvent : CloudEvent) : CloudEvent :=
  List.foldl (fun ev attr => if attr = "dataschema" then setDataSchema "" ev else ev)
    origEvent validErrs

/-- Result reported by the event sender for one send, as observed by the
adapter: whether the sender reports acknowledgment (`cloudevents.IsACK`),
and the underlying cause carried by the result. -/
structure ProtocolResult where
  isAck : Bool
  cause : String
deriving DecidableEq

/-- Embedding of `sendCloudEvent`: send the event through the client and
return `none` iff the sender reports ACK, otherwise the non-ACK result. -/
def sendCloudEvent (send : CloudEvent → ProtocolResult) (ev : CloudEvent) :
    Option ProtocolResult :=
  if (send ev).isAck then none else some (send ev)

/-- The failure entry appended to the error list for one envelope: the
envelope's id together with the non-ACK send result (`fmt.Errorf("failed
to send event with ID %s: %w", ev.ID(), err)`), or `none` when the send
succeeded. -/
def sendFailure (send : CloudEvent → ProtocolResult) (ev : CloudEvent) :
    Option (String × ProtocolResult) :=
  Option.map (fun result => (ev.id, result)) (sendCloudEvent send ev)

/-- The envelope the dispatch loop actually sends for a produced envelope:
validate once and, on failure, sanitize once (the loop's
`if err := ev.Validate(); err != nil { ev = sanitizeEvent(...) }`).
`validate` returns the failing attribute names, `[]` meaning a nil
validation error. -/
def processedEnvelope (validate : CloudEvent → List String) (ev : CloudEvent) : CloudEvent :=
  match validate ev with
  | [] => ev
  | verrs => sanitizeEvent verrs ev

/-- Embedding of the dispatch loop inside `handleMessage` (the `for _, ev
:= range events` loop): per envelope, in order, validate/sanitize, send,
and on a non-ACK result append a failure entry and continue.  Returns the
accumulated error list (the ErrorBatch, `sendErrs.errs`) and the list of
envelopes passed to the sender, both in sequence order. -/
def dispatchLoop (validate : CloudEvent → List String) (send : CloudEvent → ProtocolResult) :
    List CloudEvent → List (String × ProtocolResult) × List CloudEvent
  | [] => ([], [])
  | ev :: rest =>
    let sev := processedEnvelope validate ev
    let next := dispatchLoop validate send rest
    match sendCloudEvent send sev with
    | some result => ((sev.id, result) :: next.1, sev :: next.2)
    | none => (next.1, sev :: next.2)

/-- A raw Service Bus message, restricted to the attributes the handler
reads: its ID (used in the processing error) and its opaque body. -/
structure Message where
  id : String
  body : String
deriving DecidableEq

/-- The error returned by `handleMessage`, kept structured so that the
information each `fmt.Errorf` wrapping preserves stays observable:
`processing` is `"processing Service Bus message with ID %s: %w"`,
`sending` is `"sending events to the sink: %w"` around the `errList`
aggregate (one entry per failing envelope, in order), and `completing`
is the error propagated from the message's completion handle. -/
inductive HandleError where
  | processing (msgID : String) (cause : String)
  | sending (batch : List (String × ProtocolResult))
  | completing (cause : String)
deriving DecidableEq

/-- The observable outcome of one `handleMessage` invocation: the
envelopes passed to the sender in order, the number of times the
message's completion handle was invoked (`messageCompleteFunc`), and the
returned error. -/
structure HandleOutcome where
  sent : List CloudEvent
  completions : Nat
  err : Option HandleError
deriving DecidableEq

/-- Embedding of `handleMessage`.  `process` is the configured
`MessageProcessor.Process`, `validate` the CloudEvents validation,
`send` the event sender, and `complete` the message's completion handle
(`messageCompleteFunc(msg)(ctx)`), returning `none` on success. -/
def handleMessage (process : Message → Except String (List CloudEvent))
    (validate : CloudEvent → List String) (send : CloudEvent → ProtocolResult)
    (complete : Message → Option String) : Option Message → HandleOutcome
  | none => ⟨[], 0, none⟩
  | some msg =>
    match process msg with
    | Except.error e => ⟨[], 0, some (HandleError.processing msg.id e)⟩
    | Except.ok events =>
      let dispatched := dispatchLoop validate send events
      if dispatched.1 = [] then
        ⟨dispatched.2, 1, Option.map HandleError.completing (complete msg)⟩
      else
        ⟨dispatched.2, 0, some (HandleError.sending dispatched.1)⟩

/-- The three Service Bus authentication environment variables read by
`connectionStringFromEnvironment` via `os.Getenv`; an unset variable is
the empty string, as in Go. -/
structure SBEnv where
  connStr : String
  keyName : String
  keyValue : String
deriving DecidableEq

/-- `azure.PublicCloud.ServiceBusEndpointSuffix`. -/
def serviceBusEndpointSuffix : String := "servicebus.windows.net"

/-- Embedding of `connectionStringFromEnvironment`: the explicit
connection string from the environment, overridden by a freshly composed
one whenever the key name or the key value is set. -/
def connectionStringFromEnvironment (env : SBEnv) (ns ep : String) : String :=
  if env.keyName ≠ "" ∨ env.keyValue ≠ "" then
    "Endpoint=sb://" ++ ns ++ "." ++ serviceBusEndpointSuffix ++
      ";SharedAccessKeyName=" ++ env.keyName ++ ";SharedAccessKey=" ++ env.keyValue ++
      ";EntityPath=" ++ ep
  else
    env.connStr

/-- An authentication strategy attempted by `namespaceFromEnvironment`. -/
inductive AuthStrategy where
  | sas
  | aad
deriving DecidableEq

/-- Outcome of the namespace option returned by
`namespaceFromEnvironment`: the error it returns (`none` on success) and
the strategies it attempted, in order. -/
structure NamespaceBindResult where
  err : Option String
  attempts : List AuthStrategy
deriving DecidableEq

/-- Embedding of `namespaceFromEnvironment`.  `sasBind` models
`servicebus.NamespaceWithConnectionString` applied to the namespace
(given the connection string) and `aadBind` models
`servicebus.NamespaceWithEnvironmentBinding` (given the namespace name);
each returns its error, `none` on success.  The attempts list records
the order in which the strategies were tried. -/
def namespaceFromEnvironment (sasBind aadBind : String → Option String)
    (env : SBEnv) (entityID : AzureResourceID) : NamespaceBindResult :=
  let connStr := connectionStringFromEnvironment env entityID.Namespace (entityPath entityID)
  match sasBind connStr with
  | none => ⟨none, [AuthStrategy.sas]⟩
  | some sasErr =>
    match aadBind entityID.Namespace with
    | none => ⟨none, [AuthStrategy.sas, AuthStrategy.aad]⟩
    | some aadErr =>
      ⟨some ("neither Azure Active Directory nor SAS token provider could be built - AAD error: "
          ++ aadErr ++ ", SAS error: " ++ sasErr),
        [AuthStrategy.sas, AuthStrategy.aad]⟩

/-! Helper lemmas shared by the claim theorems. -/

/-- Unfolding of `sanitizeEvent` on a cons cell. -/
theorem sanitizeEvent_cons (attr : String) (rest : List String) (ev : CloudEvent) :
    sanitizeEvent (attr :: rest) ev =
      sanitizeEvent rest (if attr = "dataschema" then setDataSchema "" ev else ev) := rfl

/-- `sanitizeEvent` clears `dataschema` exactly when it is among the
failing attributes, and does nothing else. -/
theorem sanitizeEvent_mem (validErrs : List String) (ev : CloudEvent) :
    sanitizeEvent validErrs ev =
      if "dataschema" ∈ validErrs then setDataSchema "" ev else ev := by
  induction validErrs generalizing ev with
  | nil => rfl
  | cons attr rest ih =>
    rw [sanitizeEvent_cons]
    by_cases h : attr = "dataschema"
    · subst h
      rw [if_pos rfl, ih]
      have hset : setDataSchema "" (setDataSchema "" ev) = setDataSchema "" ev := rfl
      rw [hset]
      simp
    · rw [if_neg h, ih]
      have h2 : ¬("dataschema" = attr) := fun e => h e.symm
      simp [List.mem_cons, h2]

/-- The dispatch loop, closed form: the ErrorBatch is the ordered list of
failure entries of the processed envelopes, and the envelopes passed to
the sender are the processed envelopes, in sequence order. -/
theorem dispatchLoop_eq (validate : CloudEvent → List String)
    (send : CloudEvent → ProtocolResult) (events : List CloudEvent) :
    dispatchLoop validate send events =
      (List.filterMap (fun ev => sendFailure send (processedEnvelope validate ev)) events,
       List.map (processedEnvelope validate) events) := by
  induction events with
  | nil => rfl
  | cons ev rest ih =>
    simp only [dispatchLoop, ih, sendFailure, List.filterMap_cons, List.map_cons]
    cases h : sendCloudEvent send (processedEnvelope validate ev) <;> simp [h]

/-! Claim theorems. -/

/-- C4: for a nil/absent raw message, the top-level message handler
returns no error and performs no side effect: it neither processes,
sends, nor invokes the completion handle. -/
theorem handleMessage_nil_message (process : Message → Except String (List CloudEvent))
    (validate : CloudEvent → List String) (send : CloudEvent → ProtocolResult)
    (complete : Message → Option String) :
    handleMessage process validate send complete none = ⟨[], 0, none⟩ := rfl

/-- Witness for C4 at a concrete instantiation of the collaborators. -/
theorem handleMessage_nil_message_witness :
    handleMessage (fun _ => Except.ok []) (fun _ => []) (fun _ => ⟨true, ""⟩)
      (fun _ => none) none = ⟨[], 0, none⟩ :=
  handleMessage_nil_message _ _ _ _

/-- C8: on a processing error, the handler short-circuits: no envelope is
dispatched, the completion handle is never invoked, and the returned
error carries the message's ID. -/
theorem handleMessage_processing_error (process : Message → Except String (List CloudEvent))
    (validate : CloudEvent → List String) (send : CloudEvent → ProtocolResult)
    (complete : Message → Option String) (msg : Message) (e : String)
    (hp : process msg = Except.error e) :
    handleMessage process validate send complete (some msg) =
      ⟨[], 0, some (HandleError.processing msg.id e)⟩ := by
  simp only [handleMessage]
  rw [hp]

/-- Witness for C8: a processor that rejects every message. -/
theorem handleMessage_processing_error_witness :
    handleMessage (fun _ => Except.error "malformed body") (fun _ => [])
      (fun _ => ⟨true, ""⟩) (fun _ => none) (some ⟨"m1", "body"⟩) =
      ⟨[], 0, some (HandleError.processing "m1" "malformed body")⟩ :=
  handleMessage_processing_error _ _ _ _ _ _ rfl

/-- C5 counterexample: a deserialized identifier whose resource type and
sub-resource type satisfy the claim's validity condition (a `queues`
resource with empty sub-resource type), yet whose parsing fails because
its resource provider is not `Microsoft.ServiceBus`. -/
theorem parseServiceBusResourceID_claim_counterexample :
    (AzureResourceID.mk "s" "rg" "Microsoft.EventHub" "ns" "queues" "q1" "" "").ResourceType
        = resourceTypeQueues ∧
    (AzureResourceID.mk "s" "rg" "Microsoft.EventHub" "ns" "queues" "q1" "" "").SubResourceType
        = "" ∧
    (AzureResourceID.mk "s" "rg" "Microsoft.EventHub" "ns" "queues" "q1" "" "").ResourceType
        ≠ resourceTypeTopics ∧
    parseSucceeds (AzureResourceID.mk "s" "rg" "Microsoft.EventHub" "ns" "queues" "q1" "" "")
        = false := by
  decide

/-- C5 (amended): parsing of a deserialized identifier succeeds iff the
resource provider is the Service Bus provider, the namespace is
non-empty, the resource type is `queues` or `topics`, a `queues` resource
has an empty sub-resource type, and a `topics` resource has sub-resource
type `subscriptions`; any other combination fails with the "does not
refer to a Service Bus entity" error, and success returns the identifier
unchanged. -/
theorem parseServiceBusResourceID_valid_iff (resID : AzureResourceID) :
    (parseSucceeds resID = true ↔
      (resID.ResourceProvider = resourceProviderServiceBus ∧
       resID.Namespace ≠ "" ∧
       (resID.ResourceType = resourceTypeQueues ∨ resID.ResourceType = resourceTypeTopics) ∧
       (resID.ResourceType = resourceTypeQueues → resID.SubResourceType = "") ∧
       (resID.ResourceType = resourceTypeTopics →
         resID.SubResourceType = resourceTypeSubscriptions))) ∧
    (parseSucceeds resID = false →
      parseServiceBusResourceID resID =
        Except.error "resource ID does not refer to a Service Bus entity") ∧
    (parseSucceeds resID = true → parseServiceBusResourceID resID = Except.ok resID) := by
  by_cases h : isNotServiceBusEntity resID = true
  · have hfail : parseServiceBusResourceID resID =
        Except.error "resource ID does not refer to a Service Bus entity" := by
      unfold parseServiceBusResourceID
      rw [if_pos h]
    have hs : parseSucceeds resID = false := by
      unfold parseSucceeds
      rw [hfail]
    refine ⟨?_, fun _ => hfail, fun ht => absurd (hs ▸ ht) (by simp)⟩
    rw [hs]
    simp only [isNotServiceBusEntity, Bool.or_eq_true, Bool.and_eq_true,
      bne_iff_ne, beq_iff_eq] at h
    simp only [Bool.false_eq_true, false_iff]
    tauto
  · have hok : parseServiceBusResourceID resID = Except.ok resID := by
      unfold parseServiceBusResourceID
      rw [if_neg h]
    have hs : parseSucceeds resID = true := by
      unfold parseSucceeds
      rw [hok]
    refine ⟨?_, fun hf => absurd (hs ▸ hf) (by simp), fun _ => hok⟩
    rw [hs]
    simp only [isNotServiceBusEntity, Bool.or_eq_true, Bool.and_eq_true,
      bne_iff_ne, beq_iff_eq] at h
    push_neg at h
    simp only [true_iff]
    tauto

/-- Witness for C5 (amended): a valid queue identifier parses to itself. -/
theorem parseServiceBusResourceID_valid_iff_witness :
    parseServiceBusResourceID
        (AzureResourceID.mk "s" "rg" "Microsoft.ServiceBus" "ns" "queues" "q1" "" "") =
      Except.ok (AzureResourceID.mk "s" "rg" "Microsoft.ServiceBus" "ns" "queues" "q1" "" "") :=
  (parseServiceBusResourceID_valid_iff _).2.2 (by decide)

/-- C6: `entityPath` returns exactly the queue name for a `queues`
resource, `"<topicName>/Subscriptions/<subscriptionName>"` for a
`topics` resource, and the empty string for any other resource type. -/
theorem entityPath_spec (entityID : AzureResourceID) :
    (entityID.ResourceType = resourceTypeQueues →
      entityPath entityID = entityID.ResourceName) ∧
    (entityID.ResourceType = resourceTypeTopics →
      entityPath entityID =
        entityID.ResourceName ++ "/Subscriptions/" ++ entityID.SubResourceName) ∧
    (entityID.ResourceType ≠ resourceTypeQueues → entityID.ResourceType ≠ resourceTypeTopics →
      entityPath entityID = "") := by
  refine ⟨fun h => ?_, fun h => ?_, fun h1 h2 => ?_⟩
  · simp [entityPath, h]
  · simp [entityPath, h, resourceTypeQueues, resourceTypeTopics]
  · simp [entityPath, h1, h2]

/-- Witness for C6 at one queue, one topic subscription, and one
unsupported resource type. -/
theorem entityPath_spec_witness :
    entityPath (AzureResourceID.mk "s" "rg" "Microsoft.ServiceBus" "ns" "queues" "q1" "" "")
        = "q1" ∧
    entityPath (AzureResourceID.mk "s" "rg" "Microsoft.ServiceBus" "ns" "topics" "t1"
        "subscriptions" "sub1") = "t1/Subscriptions/sub1" ∧
    entityPath (AzureResourceID.mk "s" "rg" "Microsoft.ServiceBus" "ns" "namespaces" "x" "" "")
        = "" :=
  ⟨(entityPath_spec _).1 rfl,
   (entityPath_spec _).2.1 rfl,
   (entityPath_spec _).2.2 (by decide) (by decide)⟩

/-- C3: the dispatch loop processes envelopes in sequence order; the
envelopes passed to the sender are the processed envelopes in order, the
ErrorBatch is the ordered list of failure entries (envelope id and
cause) of the failing sends with no short-circuit, and a send counts as
successful iff the sender reports ACK. -/
theorem dispatchLoop_spec (validate : CloudEvent → List String)
    (send : CloudEvent → ProtocolResult) (events : List CloudEvent) :
    (dispatchLoop validate send events).2 = List.map (processedEnvelope validate) events ∧
    (dispatchLoop validate send events).1 =
      List.filterMap (fun ev => sendFailure send (processedEnvelope validate ev)) events ∧
    ∀ ev : CloudEvent, sendCloudEvent send ev = none ↔ (send ev).isAck = true := by
  refine ⟨by rw [dispatchLoop_eq], by rw [dispatchLoop_eq], fun ev => ?_⟩
  unfold sendCloudEvent
  by_cases h : (send ev).isAck = true <;> simp [h]

/-- Witness for C3: one failing envelope yields exactly its failure
entry. -/
theorem dispatchLoop_spec_witness :
    (dispatchLoop (fun _ => []) (fun _ => ProtocolResult.mk false "timeout")
      [CloudEvent.mk "e1" "s" "t" "" "d"]).1 =
      [("e1", ProtocolResult.mk false "timeout")] := by
  have h := dispatchLoop_spec (fun _ => []) (fun _ => ProtocolResult.mk false "timeout")
    [CloudEvent.mk "e1" "s" "t" "" "d"]
  rw [h.2.1]
  rfl

/-- C1: when processing succeeds and every send is acknowledged (the
ErrorBatch is empty), the handler invokes the completion handle exactly
once and returns no error other than one propagated from the completion
handle itself. -/
theorem handleMessage_all_acked (process : Message → Except String (List CloudEvent))
    (validate : CloudEvent → List String) (send : CloudEvent → ProtocolResult)
    (complete : Message → Option String) (msg : Message) (events : List CloudEvent)
    (hp : process msg = Except.ok events)
    (hd : (dispatchLoop validate send events).1 = []) :
    (handleMessage process validate send complete (some msg)).completions = 1 ∧
    (handleMessage process validate send complete (some msg)).err =
      Option.map HandleError.completing (complete msg) := by
  simp only [handleMessage]
  rw [hp]
  simp [hd]

/-- Witness for C1: one envelope, an acknowledging sender, a succeeding
completion handle. -/
theorem handleMessage_all_acked_witness :
    (handleMessage (fun _ => Except.ok [CloudEvent.mk "e1" "s" "t" "" "d"]) (fun _ => [])
      (fun _ => ProtocolResult.mk true "") (fun _ => none)
      (some ⟨"m1", "body"⟩)).completions = 1 ∧
    (handleMessage (fun _ => Except.ok [CloudEvent.mk "e1" "s" "t" "" "d"]) (fun _ => [])
      (fun _ => ProtocolResult.mk true "") (fun _ => none)
      (some ⟨"m1", "body"⟩)).err = none :=
  handleMessage_all_acked _ _ _ _ _ [CloudEvent.mk "e1" "s" "t" "" "d"] rfl rfl

/-- C2: when at least one send fails, the handler does not invoke the
completion handle and returns the aggregate error enumerating every
failing envelope's id and cause; re-running dispatch on the same inputs
yields the same ErrorBatch (the embedded dispatch is a pure function of
its inputs). -/
theorem handleMessage_send_failures (process : Message → Except String (List CloudEvent))
    (validate : CloudEvent → List String) (send : CloudEvent → ProtocolResult)
    (complete : Message → Option String) (msg : Message) (events : List CloudEvent)
    (hp : process msg = Except.ok events)
    (hne : (dispatchLoop validate send events).1 ≠ []) :
    (handleMessage process validate send complete (some msg)).completions = 0 ∧
    (handleMessage process validate send complete (some msg)).err =
      some (HandleError.sending
        (List.filterMap (fun ev => sendFailure send (processedEnvelope validate ev)) events)) ∧
    dispatchLoop validate send events = dispatchLoop validate send events := by
  have hne2 : List.filterMap (fun ev => sendFailure send (processedEnvelope validate ev))
      events ≠ [] := by
    rw [dispatchLoop_eq] at hne
    exact hne
  refine ⟨?_, ?_, rfl⟩ <;>
  · simp only [handleMessage]
    rw [hp]
    simp [dispatchLoop_eq, hne2]

/-- Witness for C2: a sender that reports a non-ACK result with cause
`"timeout"` for the only envelope. -/
theorem handleMessage_send_failures_witness :
    (handleMessage (fun _ => Except.ok [CloudEvent.mk "e1" "s" "t" "" "d"]) (fun _ => [])
      (fun _ => ProtocolResult.mk false "timeout") (fun _ => none)
      (some ⟨"m1", "body"⟩)).completions = 0 ∧
    (handleMessage (fun _ => Except.ok [CloudEvent.mk "e1" "s" "t" "" "d"]) (fun _ => [])
      (fun _ => ProtocolResult.mk false "timeout") (fun _ => none)
      (some ⟨"m1", "body"⟩)).err =
      some (HandleError.sending [("e1", ProtocolResult.mk false "timeout")]) ∧
    dispatchLoop (fun _ => []) (fun _ => ProtocolResult.mk false "timeout")
        [CloudEvent.mk "e1" "s" "t" "" "d"] =
      dispatchLoop (fun _ => []) (fun _ => ProtocolResult.mk false "timeout")
        [CloudEvent.mk "e1" "s" "t" "" "d"] :=
  handleMessage_send_failures _ _ _ _ _ [CloudEvent.mk "e1" "s" "t" "" "d"] rfl (by decide)

/-- C7: the sanitizer is applied once, single-pass: an invalid
`dataschema` attribute is cleared, failing attributes with no known fix
leave the envelope unchanged, sanitizing never touches the other
attributes, and the dispatch loop sends the possibly-corrected envelope
regardless (it is not re-validated after sanitizing). -/
theorem sanitizeEvent_spec (validate : CloudEvent → List String)
    (send : CloudEvent → ProtocolResult) (ev : CloudEvent) :
    ("dataschema" ∈ validate ev → (processedEnvelope validate ev).dataschema = "") ∧
    (validate ev ≠ [] → "dataschema" ∉ validate ev → processedEnvelope validate ev = ev) ∧
    (∀ verrs : List String, ∀ e : CloudEvent,
      (sanitizeEvent verrs e).id = e.id ∧ (sanitizeEvent verrs e).source = e.source ∧
      (sanitizeEvent verrs e).eventType = e.eventType ∧
      (sanitizeEvent verrs e).data = e.data) ∧
    (dispatchLoop validate send [ev]).2 = [processedEnvelope validate ev] := by
  refine ⟨fun hm => ?_, fun hne hnm => ?_, fun verrs e => ?_, ?_⟩
  · unfold processedEnvelope
    cases h : validate ev with
    | nil => rw [h] at hm; exact absurd hm (by simp)
    | cons a l =>
      show (sanitizeEvent (a :: l) ev).dataschema = ""
      rw [h] at hm
      rw [sanitizeEvent_mem, if_pos hm]
      rfl
  · unfold processedEnvelope
    cases h : validate ev with
    | nil => exact absurd h hne
    | cons a l =>
      show sanitizeEvent (a :: l) ev = ev
      rw [h] at hnm
      rw [sanitizeEvent_mem, if_neg hnm]
  · rw [sanitizeEvent_mem]
    by_cases hm : "dataschema" ∈ verrs <;> simp [hm, setDataSchema]
  · rw [dispatchLoop_eq]
    simp

/-- Witness for C7: an envelope with `dataschema` `"#"` is cleared; a
failing attribute with no known fix leaves the envelope unchanged. -/
theorem sanitizeEvent_spec_witness :
    (processedEnvelope (fun e => if e.dataschema = "#" then ["dataschema"] else [])
        (CloudEvent.mk "e1" "s" "t" "#" "d")).dataschema = "" ∧
    processedEnvelope (fun _ => ["subject"]) (CloudEvent.mk "e2" "s" "t" "ok" "d") =
      CloudEvent.mk "e2" "s" "t" "ok" "d" :=
  ⟨(sanitizeEvent_spec (fun e => if e.dataschema = "#" then ["dataschema"] else [])
      (fun _ => ProtocolResult.mk true "") (CloudEvent.mk "e1" "s" "t" "#" "d")).1 (by decide),
   (sanitizeEvent_spec (fun _ => ["subject"]) (fun _ => ProtocolResult.mk true "")
      (CloudEvent.mk "e2" "s" "t" "ok" "d")).2.1 (by decide) (by decide)⟩

/-- C9: authentication is an ordered fallback: a present shared-access
key pair composes a fresh connection string, SAS (connection-string)
binding is tried first and alone on success, AAD binding is attempted
only after a SAS failure, and when both fail the returned error names
both strategies' failures. -/
theorem namespaceFromEnvironment_spec (sasBind aadBind : String → Option String)
    (env : SBEnv) (entityID : AzureResourceID) :
    ((env.keyName ≠ "" ∨ env.keyValue ≠ "") →
      connectionStringFromEnvironment env entityID.Namespace (entityPath entityID) =
        "Endpoint=sb://" ++ entityID.Namespace ++ "." ++ serviceBusEndpointSuffix ++
          ";SharedAccessKeyName=" ++ env.keyName ++ ";SharedAccessKey=" ++ env.keyValue ++
          ";EntityPath=" ++ entityPath entityID) ∧
    (sasBind (connectionStringFromEnvironment env entityID.Namespace (entityPath entityID))
        = none →
      namespaceFromEnvironment sasBind aadBind env entityID = ⟨none, [AuthStrategy.sas]⟩) ∧
    (∀ sasErr,
      sasBind (connectionStringFromEnvironment env entityID.Namespace (entityPath entityID))
          = some sasErr →
      (namespaceFromEnvironment sasBind aadBind env entityID).attempts =
        [AuthStrategy.sas, AuthStrategy.aad] ∧
      (aadBind entityID.Namespace = none →
        (namespaceFromEnvironment sasBind aadBind env entityID).err = none) ∧
      (∀ aadErr, aadBind entityID.Namespace = some aadErr →
        (namespaceFromEnvironment sasBind aadBind env entityID).err =
          some ("neither Azure Active Directory nor SAS token provider could be built - AAD error: "
            ++ aadErr ++ ", SAS error: " ++ sasErr))) := by
  refine ⟨fun h => ?_, fun h => ?_, fun sasErr h => ⟨?_, fun ha => ?_, fun aadErr ha => ?_⟩⟩
  · unfold connectionStringFromEnvironment
    rw [if_pos h]
  · simp [namespaceFromEnvironment, h]
  · cases ha : aadBind entityID.Namespace <;> simp [namespaceFromEnvironment, h, ha]
  · simp [namespaceFromEnvironment, h, ha]
  · simp [namespaceFromEnvironment, h, ha]

/-- Witness for C9: a succeeding SAS binding stops after the SAS
attempt; a doubly failing environment reports both failures; a present
key pair composes the fresh connection string. -/
theorem namespaceFromEnvironment_spec_witness :
    namespaceFromEnvironment (fun _ => none) (fun _ => some "no aad creds")
        (SBEnv.mk "cs" "" "")
        (AzureResourceID.mk "s" "rg" "Microsoft.ServiceBus" "ns" "queues" "q1" "" "") =
      ⟨none, [AuthStrategy.sas]⟩ ∧
    (namespaceFromEnvironment (fun _ => some "bad conn string") (fun _ => some "no aad creds")
        (SBEnv.mk "cs" "" "")
        (AzureResourceID.mk "s" "rg" "Microsoft.ServiceBus" "ns" "queues" "q1" "" "")).err =
      some ("neither Azure Active Directory nor SAS token provider could be built - AAD error: "
        ++ "no aad creds" ++ ", SAS error: " ++ "bad conn string") ∧
    connectionStringFromEnvironment (SBEnv.mk "cs" "kn" "kv") "ns"
        (entityPath (AzureResourceID.mk "s" "rg" "Microsoft.ServiceBus" "ns" "queues" "q1" "" "")) =
      "Endpoint=sb://ns.servicebus.windows.net;SharedAccessKeyName=kn;SharedAccessKey=kv;EntityPath=q1" :=
  ⟨(namespaceFromEnvironment_spec (fun _ => none) (fun _ => some "no aad creds") _ _).2.1 rfl,
   ((namespaceFromEnvironment_spec (fun _ => some "bad conn string") (fun _ => some "no aad creds")
      _ _).2.2 "bad conn string" rfl).2.2 "no aad creds" rfl,
   (namespaceFromEnvironment_spec (fun _ => none) (fun _ => none) (SBEnv.mk "cs" "kn" "kv")
      (AzureResourceID.mk "s" "rg" "Microsoft.ServiceBus" "ns" "queues" "q1" "" "")).1
      (Or.inl (by decide))⟩

/-- C10: whenever the key-name variable or the key-value variable is
non-empty (not only when both are set), the explicit connection string
is ignored and a fresh connection string is composed with the
possibly-empty missing half of the pair. -/
theorem connectionStringFromEnvironment_spec (env : SBEnv) (ns ep : String)
    (h : env.keyName ≠ "" ∨ env.keyValue ≠ "") :
    connectionStringFromEnvironment env ns ep =
      "Endpoint=sb://" ++ ns ++ "." ++ serviceBusEndpointSuffix ++
        ";SharedAccessKeyName=" ++ env.keyName ++ ";SharedAccessKey=" ++ env.keyValue ++
        ";EntityPath=" ++ ep ∧
    ∀ c : String,
      connectionStringFromEnvironment (SBEnv.mk c env.keyName env.keyValue) ns ep =
        connectionStringFromEnvironment env ns ep := by
  constructor
  · unfold connectionStringFromEnvironment
    rw [if_pos h]
  · intro c
    simp only [connectionStringFromEnvironment]
    rw [if_pos h, if_pos h]

/-- Witness for C10: only the key value is set, yet the composed string
(with an empty key name) replaces the explicit connection string. -/
theorem connectionStringFromEnvironment_spec_witness :
    connectionStringFromEnvironment (SBEnv.mk "Endpoint=explicit" "" "kv") "ns1" "q1" =
      "Endpoint=sb://ns1.servicebus.windows.net;SharedAccessKeyName=;SharedAccessKey=kv;EntityPath=q1" :=
  (connectionStringFromEnvironment_spec (SBEnv.mk "Endpoint=explicit" "" "kv") "ns1" "q1"
    (Or.inr (by decide))).1

end AzureServiceBus
